import Mathlib

/-!
Shallow embedding of the unnbound-logger library (TypeScript) in Lean 4.

The embedding follows the authoritative sources:
  * `src/utils/trace-context.ts`  (TraceContextManager over AsyncLocalStorage)
  * `src/utils/logger-utils.ts`   (filterHeaders, safeJsonParse, normalizeIp)
  * `src/utils/http-status-messages.ts` (getStatusMessage)
  * `src/unnbound-logger.ts`      (UnnboundLogger: log, httpRequest, httpResponse,
                                   sftpTransaction, dbQueryTransaction,
                                   shouldIgnorePath, traceMiddleware)

External runtime primitives are modelled as parameters:
  * `uuidv4()` values are passed in explicitly (`FreshIds` / a `String` argument);
  * `Date.now()` is passed in as an `Int` argument (`now`);
  * `JSON.parse` is passed in as a function `String → Except String JsVal`
    (returning `.error` models the exception the source catches);
  * the ambient trace id read by `traceContext.getTraceId()` is passed in as
    `ambient : Option String` (the dynamic store is modelled separately for the
    concurrency claim).

JavaScript dynamic values and truthiness are modelled explicitly so that the
`||` fallback chains of the source keep their exact semantics (in particular
`"" || x` and `0 || x` both fall through to `x`).
-/

namespace UL

/-- JavaScript runtime values, as far as the logger inspects them. -/
inductive JsVal where
  | vNull
  | vUndefined
  | vStr (s : String)
  | vNum (n : Int)
  | vBool (b : Bool)
  | vObj (fields : List (String × JsVal))

/-- JavaScript truthiness of a `JsVal`. -/
def truthy : JsVal → Bool
  | .vNull => false
  | .vUndefined => false
  | .vStr s => s ≠ ""
  | .vNum n => n ≠ 0
  | .vBool b => b
  | .vObj _ => true

/-- JavaScript `a || b` on dynamic values. -/
def jsOr (a b : JsVal) : JsVal := if truthy a then a else b

/-- JavaScript `a || b` where `a : string | undefined` and `b : string`:
`undefined` and the empty string both fall through to `b`. -/
def orStr (a : Option String) (b : String) : String :=
  match a with
  | some s => if s = "" then b else s
  | none => b

/-- JavaScript `a || b` where both sides are `string | undefined`. -/
def orStrOpt (a b : Option String) : Option String :=
  match a with
  | some s => if s = "" then b else some s
  | none => b

/-- JavaScript `a || b` where `a : number | undefined` and `b : number`:
`undefined` and `0` both fall through to `b`. -/
def orNum (a : Option Int) (b : Int) : Int :=
  match a with
  | some n => if n = 0 then b else n
  | none => b

/-- Lookup of a property on a JavaScript object.  Objects are modelled as
association lists with unique keys (a JavaScript object has one slot per
key), so first-match lookup is the property read. -/
def objGet (o : List (String × JsVal)) (k : String) : Option JsVal :=
  match o with
  | [] => none
  | p :: rest => if p.1 = k then some p.2 else objGet rest k

/-- Assignment of a property: overwrites an existing key in place, otherwise
appends (JavaScript object-literal update order). -/
def objSet (o : List (String × JsVal)) (k : String) (v : JsVal) : List (String × JsVal) :=
  match o with
  | [] => [(k, v)]
  | p :: rest => if p.1 = k then (k, v) :: rest else p :: objSet rest k v

/-- Object spread `{...o, ...fields}`: assigns each field of `fields` in order. -/
def objSpread (o fields : List (String × JsVal)) : List (String × JsVal) :=
  fields.foldl (fun acc p => objSet acc p.1 p.2) o

/-- Rest destructuring `const {k: _, ...rest} = o`: removes the key `k`. -/
def objRemove (o : List (String × JsVal)) (k : String) : List (String × JsVal) :=
  match o with
  | [] => []
  | p :: rest => if p.1 = k then objRemove rest k else p :: objRemove rest k

/-- Log severity levels of the library (`LogLevel` in `types.ts`). -/
inductive LogLevel where
  | error
  | warn
  | info
  | debug
deriving DecidableEq, Repr

/-- JavaScript `options.level || default`: every `LogLevel` string is truthy,
so a present level always wins. -/
def orLevel (a : Option LogLevel) (b : LogLevel) : LogLevel :=
  match a with
  | some l => l
  | none => b

/-- Static configuration of an `UnnboundLogger` instance (constructor fields:
workflow/service/deployment metadata from the environment, the trace header
key, and the two glob ignore lists). -/
structure Config where
  workflowId : String := ""
  workflowUrl : String := ""
  serviceId : String := ""
  deploymentId : String := ""
  traceHeaderKey : String := "unnbound-trace-id"
  ignoreTraceRoutes : List String := []
  ignoreAxiosTraceRoutes : List String := []

/-- The `uuidv4()` draws one logger call can make: one for `logId`, one for a
fresh `traceId`, one for a fresh `requestId` (each used only when the
corresponding fallback chain reaches `uuidv4()`). -/
structure FreshIds where
  logId : String
  traceId : String
  requestId : String

/-!
Trace Context Store (`src/utils/trace-context.ts`).

`TraceContextManager.run(traceId, cb)` delegates to
`AsyncLocalStorage.run({traceId}, cb)`: the store is bound to `{traceId}` for
`cb` and for every asynchronous continuation created inside `cb`.
`getTraceId()` reads `storage.getStore()?.traceId`.

The Node scheduling model (spec §5) is single-threaded cooperative execution:
logical tasks interleave at suspension points, and the async-hooks machinery
restores the store snapshot captured by a task's continuation chain whenever
that task is resumed.  We model this mechanism explicitly: the store is a
shared mutable cell, each logical task carries the snapshot its continuation
chain was created under, and the scheduler writes that snapshot into the
shared cell when it resumes the task.  `getTraceId()` reads the shared cell.
-/

/-- One atomic step of a logical task between suspension points: either an
ambient `getTraceId()` read or a pure computation step ending in a suspension
point. -/
inductive Act where
  | readTid
  | compute
deriving DecidableEq, Repr

/-- A logical task: the `AsyncLocalStorage` snapshot its continuation chain
was created under, and its remaining atomic steps. -/
structure TaskT where
  ctx : Option String
  prog : List Act
deriving DecidableEq, Repr

/-- The two-task system state: the shared mutable store cell of the
`AsyncLocalStorage` plus the two in-flight logical tasks. -/
structure Sys where
  store : Option String
  taskA : TaskT
  taskB : TaskT
deriving DecidableEq, Repr

/-- Model of `traceContext.run(id, cb)` starting a logical task: the
continuation chain of `cb` is bound to the snapshot `{traceId: id}`. -/
def spawn (id : String) (prog : List Act) : TaskT := ⟨some id, prog⟩

/-- Initial system: two logical tasks A and B, each started with
`traceContext.run` on its own id; no scope is active on the scheduler itself. -/
def initSys (idA : String) (progA : List Act) (idB : String) (progB : List Act) : Sys :=
  ⟨none, spawn idA progA, spawn idB progB⟩

/-- Run the two-task system under an interleaving schedule (`true` picks task
A, `false` picks task B).  Resuming a task first restores its snapshot into
the shared store cell (the async-hooks context restore); executing `readTid`
then observes the value `getTraceId()` returns at that point.  The result is
the list of observations `(which task, value read)` in execution order. -/
def runSched : Sys → List Bool → List (Bool × Option String)
  | _, [] => []
  | sys, pick :: rest =>
    let t := if pick then sys.taskA else sys.taskB
    let restored := t.ctx
    match t.prog with
    | [] => runSched { sys with store := restored } rest
    | a :: p =>
      let t' : TaskT := ⟨t.ctx, p⟩
      let sys' : Sys :=
        if pick then ⟨restored, t', sys.taskB⟩ else ⟨restored, sys.taskA, t'⟩
      match a with
      | .readTid => (pick, restored) :: runSched sys' rest
      | .compute => runSched sys' rest

/-!
Glob ignore patterns (`UnnboundLogger.shouldIgnorePath`).

The source compiles a pattern to a JavaScript regular expression by the three
substitutions `.` → `\.`, `*` → `.*`, `?` → `.` (in that order), anchored with
`^…$`, and tests the path against it.  The regex metacharacter `.` produced
for `*` and `?` matches any character except a line terminator (JavaScript
`.` without the `s` flag).  We model the compiled regex as a token list and
its anchored-match semantics directly; this denotes the constructed regex for
patterns built from literal characters and the two wildcards (the patterns
the library's ignore lists use).
-/

/-- JavaScript regex `.` (no `s` flag): any character except a line
terminator (`\n`, `\r`, U+2028, U+2029). -/
def jsDot (c : Char) : Bool :=
  !(c = '\n' || c = '\r' || c.val = 0x2028 || c.val = 0x2029)

/-- Tokens of the regex `shouldIgnorePath` compiles a glob pattern to:
a literal character, `.*` (from `*`), or `.` (from `?`). -/
inductive GlobTok where
  | lit (c : Char)
  | anyRun
  | anyOne
deriving DecidableEq, Repr

/-- Compilation of a glob pattern, character by character, mirroring the
substitution chain of the source: `*` becomes `.*`, `?` becomes `.`, `.` is
escaped to a literal dot, and every other character stands for itself. -/
def compileGlob (pattern : String) : List GlobTok :=
  pattern.data.map (fun c =>
    if c = '*' then GlobTok.anyRun
    else if c = '?' then GlobTok.anyOne
    else GlobTok.lit c)

/-- Anchored match of the compiled regex against a character list: the whole
input must be consumed (the source anchors with `^…$`).  The `.*` produced
for `*` matches exactly the runs of non-line-terminator characters, so the
star case tries every split whose consumed prefix is all `jsDot`. -/
def globMatch : List GlobTok → List Char → Bool
  | [], xs => xs.isEmpty
  | .lit _ :: _, [] => false
  | .lit c :: ts, x :: xs => c = x && globMatch ts xs
  | .anyOne :: _, [] => false
  | .anyOne :: ts, x :: xs => jsDot x && globMatch ts xs
  | .anyRun :: ts, xs =>
    (List.range (xs.length + 1)).any
      (fun n => (xs.take n).all jsDot && globMatch ts (xs.drop n))

/-- Checks if a path matches any of the ignore patterns
(`UnnboundLogger.shouldIgnorePath`). -/
def shouldIgnorePath (path : String) (patterns : List String) : Bool :=
  patterns.any (fun pattern => globMatch (compileGlob pattern) path.data)

/-!
Logging utilities (`src/utils/logger-utils.ts`).
-/

/-- Header allow-list (`ALLOWED_HEADERS`). -/
def allowedHeaders : List String :=
  ["content-type", "accept", "user-agent", "host", "x-forwarded-for",
   "x-request-id", "content-length", "cache-control"]

/-- ASCII lower-casing, as `key.toLowerCase()` behaves on the ASCII header
names the allow-list compares against. -/
def asciiLower (s : String) : String := String.mk (s.data.map Char.toLower)

/-- Filters a headers object, keeping only the allow-listed headers
(`filterHeaders`).  Header values are already their `String(...)` form. -/
def filterHeaders (headers : List (String × String)) : List (String × String) :=
  headers.filter (fun p => allowedHeaders.contains (asciiLower p.1))

/-- Safely parses JSON strings, returning the original data if parsing fails
or if it is not a string (`safeJsonParse`).  `jp` is the external `JSON.parse`
primitive; `.error` is the exception the source's `catch` swallows. -/
def safeJsonParse (jp : String → Except String JsVal) (data : JsVal) : JsVal :=
  match data with
  | .vStr s =>
    match jp s with
    | .ok v => v
    | .error _ => .vStr s
  | v => v

/-- Normalizes IP addresses by removing the IPv4-mapped IPv6 prefix
(`normalizeIp`).  A falsy input (undefined or empty) is returned unchanged. -/
def normalizeIp (ip : Option String) : Option String :=
  match ip with
  | none => none
  | some s =>
    if s = "" then some ""
    else if s.startsWith "::ffff:" then some (s.drop 7)
    else some s

/-!
HTTP status messages (`src/utils/http-status-messages.ts`).
-/

/-- Table of HTTP status messages and descriptions (`httpStatusDetails`). -/
def httpStatusDetails : Nat → Option (String × String)
  | 100 => some ("Continue", "The server has received the request headers, and the client should proceed to send the request body")
  | 101 => some ("Switching Protocols", "The requester has asked the server to switch protocols")
  | 103 => some ("Early Hints", "Used with the Link header to allow the browser to start preloading resources while the server prepares a response")
  | 200 => some ("OK", "The request is OK")
  | 201 => some ("Created", "The request has been fulfilled, and a new resource is created")
  | 202 => some ("Accepted", "The request has been accepted for processing, but the processing has not been completed")
  | 203 => some ("Non-Authoritative Information", "The request has been successfully processed, but is returning information that may be from another source")
  | 204 => some ("No Content", "The request has been successfully processed, but is not returning any content")
  | 205 => some ("Reset Content", "The request has been successfully processed, but is not returning any content, and requires that the requester reset the document view")
  | 206 => some ("Partial Content", "The server is delivering only part of the resource due to a range header sent by the client")
  | 300 => some ("Multiple Choices", "A link list. The user can select a link and go to that location. Maximum five addresses")
  | 301 => some ("Moved Permanently", "The requested page has moved to a new URL")
  | 302 => some ("Found", "The requested page has moved temporarily to a new URL")
  | 303 => some ("See Other", "The requested page can be found under a different URL")
  | 304 => some ("Not Modified", "Indicates the requested page has not been modified since last requested")
  | 307 => some ("Temporary Redirect", "The requested page has moved temporarily to a new URL")
  | 308 => some ("Permanent Redirect", "The requested page has moved permanently to a new URL")
  | 400 => some ("Bad Request", "The request cannot be fulfilled due to bad syntax")
  | 401 => some ("Unauthorized", "The request was a legal request, but the server is refusing to respond to it. For use when authentication is possible but has failed or not yet been provided")
  | 402 => some ("Payment Required", "Reserved for future use")
  | 403 => some ("Forbidden", "The request was a legal request, but the server is refusing to respond to it")
  | 404 => some ("Not Found", "The requested page could not be found but may be available again in the future")
  | 405 => some ("Method Not Allowed", "A request was made of a page using a request method not supported by that page")
  | 406 => some ("Not Acceptable", "The server can only generate a response that is not accepted by the client")
  | 407 => some ("Proxy Authentication Required", "The client must first authenticate itself with the proxy")
  | 408 => some ("Request Timeout", "The server timed out waiting for the request")
  | 409 => some ("Conflict", "The request could not be completed because of a conflict in the request")
  | 410 => some ("Gone", "The requested page is no longer available")
  | 411 => some ("Length Required", "The \"Content-Length\" is not defined. The server will not accept the request without it")
  | 412 => some ("Precondition Failed", "The precondition given in the request evaluated to false by the server")
  | 413 => some ("Request Too Large", "The server will not accept the request, because the request entity is too large")
  | 414 => some ("Request-URI Too Long", "The server will not accept the request, because the URI is too long. Occurs when you convert a POST request to a GET request with a long query information")
  | 415 => some ("Unsupported Media Type", "The server will not accept the request, because the media type is not supported")
  | 416 => some ("Range Not Satisfiable", "The client has asked for a portion of the file, but the server cannot supply that portion")
  | 417 => some ("Expectation Failed", "The server cannot meet the requirements of the Expect request-header field")
  | 500 => some ("Internal Server Error", "A generic error message, given when no more specific message is suitable")
  | 501 => some ("Not Implemented", "The server either does not recognize the request method, or it lacks the ability to fulfill the request")
  | 502 => some ("Bad Gateway", "The server was acting as a gateway or proxy and received an invalid response from the upstream server")
  | 503 => some ("Service Unavailable", "The server is currently unavailable (overloaded or down)")
  | 504 => some ("Gateway Timeout", "The server was acting as a gateway or proxy and did not receive a timely response from the upstream server")
  | 505 => some ("HTTP Version Not Supported", "The server does not support the HTTP protocol version used in the request")
  | 511 => some ("Network Authentication Required", "The client needs to authenticate to gain network access")
  | _ => none

/-- Human-readable message for a status code (`getStatusMessage`). -/
def getStatusMessage (statusCode : Nat) : String :=
  match httpStatusDetails statusCode with
  | some st => st.1 ++ " - " ++ st.2
  | none => "Unknown Status"

/-!
Request/response shapes of the Express contract used by `UnnboundLogger`
(`src/unnbound-logger.ts`).  Only the narrow read/write surface the logger
touches is modelled.  `hasRes` models the presence of `req.res` (the paired
response object); the mutable `res.locals` slot is threaded explicitly.
-/

/-- The per-request mutable slot `res.locals` as the logger reads/writes it. -/
structure Locals where
  requestId : Option String := none
  startTime : Option Int := none
  traceId : Option String := none
  workflowId : Option String := none
  workflowUrl : Option String := none
  serviceId : Option String := none
  body : JsVal := .vUndefined

/-- The fields of an Express request the logger reads.  `hostHeader` and
`xForwardedHost` are the results of `req.get('host')` and
`req.get('x-forwarded-host')`. -/
structure Req where
  method : String := "GET"
  url : Option String := none
  originalUrl : Option String := none
  headers : List (String × String) := []
  ip : Option String := none
  body : JsVal := .vUndefined
  protocol : Option String := none
  secure : Bool := false
  hostHeader : Option String := none
  xForwardedHost : Option String := none
  hasRes : Bool := false

/-- The fields of an Express response the logger reads: status code, the
`locals` slot, and the result of `res.getHeaders()`. -/
structure Res where
  statusCode : Nat
  locals : Locals := {}
  headers : List (String × String) := []

/-- Removes a single trailing slash (the source's `replace(/\x2f$/, '')`). -/
def stripTrailingSlash (s : String) : String :=
  if s.endsWith "/" then s.dropRight 1 else s

/-- Template-literal coercion of a possibly-undefined string. -/
def jsStr (o : Option String) : String :=
  match o with
  | some s => s
  | none => "undefined"

/-- Constructs the full URL from request information
(`UnnboundLogger.constructFullUrl`). -/
def constructFullUrl (cfg : Config) (req : Req) : String :=
  let reqUrl := orStrOpt req.originalUrl req.url
  let urlStr := jsStr reqUrl
  let isAbsolute :=
    match reqUrl with
    | some s => s.startsWith "http://" || s.startsWith "https://"
    | none => false
  if isAbsolute then urlStr
  else if cfg.workflowUrl ≠ "" then
    stripTrailingSlash cfg.workflowUrl ++ urlStr
  else
    let protocol := orStr req.protocol (if req.secure then "https" else "http")
    let host := orStr req.hostHeader (orStr req.xForwardedHost "localhost")
    protocol ++ "://" ++ host ++ urlStr

/-!
General logging (`UnnboundLogger.log`).  The runtime message value may be a
string, an Error instance, a plain object, or any other JavaScript value the
(unchecked at runtime) type annotation admits.
-/

/-- Runtime message argument of `log` as the source branches on it:
`instanceof Error`, `typeof === 'string'`, and everything else. -/
inductive JsMessage where
  | str (s : String)
  | errObj (name message : String) (stack : Option String)
  | obj (fields : List (String × JsVal))
  | num (n : Int)
  | bool (b : Bool)
  | nullV
  | undef

/-- Options of `log` (`GeneralLogOptions`): the three destructured fields plus
arbitrary extra fields (`...restOptions`).  `extra` holds the remaining keys
of the options object, so it contains no `traceId`/`requestId`/`level` key. -/
structure GenOptions where
  traceId : Option String := none
  requestId : Option String := none
  level : Option LogLevel := none
  extra : List (String × JsVal) := []

/-- Outcome of a `log` call: the full `logEntry` object the method returns,
the merge object and message actually emitted to the engine
(`this.logger[level](logData, logMessage)`), and the method used (`level`). -/
structure LogResult where
  entry : List (String × JsVal)
  logData : List (String × JsVal)
  logMessage : JsVal
  emitLevel : LogLevel

/-- Final destructuring of `logEntry`: `message` becomes the emitted message
and both `message` and `level` are excluded from the emitted merge object. -/
def mkLogResult (entry : List (String × JsVal)) (emitLevel : LogLevel) : LogResult :=
  { entry := entry
    logData := objRemove (objRemove entry "message") "level"
    logMessage := (objGet entry "message").getD .vUndefined
    emitLevel := emitLevel }

/-- Logs a general message (`UnnboundLogger.log`).  Returns `.error` when the
JavaScript code would throw: reading `.message` of a `null`/`undefined`
message in the structured-object branch raises a `TypeError`. -/
def log (cfg : Config) (ambient : Option String) (fresh : FreshIds)
    (level : LogLevel) (message : JsMessage) (options : GenOptions) :
    Except String LogResult :=
  let traceId := orStr options.traceId (orStr ambient fresh.traceId)
  let requestId := orStr options.requestId fresh.requestId
  let baseEntry : List (String × JsVal) :=
    [("logId", .vStr fresh.logId), ("type", .vStr "general"),
     ("workflowId", .vStr cfg.workflowId), ("serviceId", .vStr cfg.serviceId),
     ("traceId", .vStr traceId), ("requestId", .vStr requestId),
     ("deploymentId", .vStr cfg.deploymentId)]
  let rest := options.extra.filter
    (fun p => !(p.1 == "traceId" || p.1 == "requestId" || p.1 == "level"))
  match message with
  | .errObj name msg stack =>
    let errVal : JsVal := .vObj [("name", .vStr name), ("message", .vStr msg),
      ("stack", match stack with | some s => .vStr s | none => .vUndefined)]
    let entry := objSpread (objSet (objSet baseEntry "message" (.vStr name)) "error" errVal) rest
    .ok (mkLogResult entry level)
  | .str s =>
    let entry := objSpread (objSet baseEntry "message" (.vStr s)) rest
    .ok (mkLogResult entry level)
  | .obj fields =>
    let msgVal := jsOr ((objGet fields "message").getD .vUndefined) (.vStr "Structured log data")
    let entry := objSpread (objSet (objSpread baseEntry fields) "message" msgVal) rest
    .ok (mkLogResult entry level)
  | .num _ =>
    let entry := objSpread (objSet baseEntry "message" (.vStr "Structured log data")) rest
    .ok (mkLogResult entry level)
  | .bool _ =>
    let entry := objSpread (objSet baseEntry "message" (.vStr "Structured log data")) rest
    .ok (mkLogResult entry level)
  | .nullV => .error "TypeError: Cannot read properties of null (reading message)"
  | .undef => .error "TypeError: Cannot read properties of undefined (reading message)"

/-!
HTTP request/response logging (`UnnboundLogger.httpRequest` /
`UnnboundLogger.httpResponse`).
-/

/-- Options of `httpRequest` (`HttpRequestLogOptions`). -/
structure HttpReqOptions where
  traceId : Option String := none
  requestId : Option String := none
  startTime : Option Int := none
  level : Option LogLevel := none

/-- Payload of an httpRequest record. -/
structure HttpReqPayload where
  url : String
  method : String
  headers : List (String × String)
  ip : Option String
  body : JsVal

/-- An emitted httpRequest record (`HttpRequestLog`). -/
structure HttpRequestRecord where
  logId : String
  type : String
  message : String
  workflowId : String
  serviceId : String
  traceId : String
  requestId : String
  deploymentId : String
  duration : Int
  httpRequest : HttpReqPayload

/-- Outcome of an `httpRequest` call: the record, the engine method used
(`options.level || 'info'`), and the updated `res.locals` slot. -/
structure HttpRequestResult where
  record : HttpRequestRecord
  emitLevel : LogLevel
  locals : Locals

/-- Logs an HTTP request (`UnnboundLogger.httpRequest`).  When `req.res`
exists, stores requestId/startTime/traceId and the workflow metadata on the
paired response's `locals` slot. -/
def httpRequest (cfg : Config) (ambient : Option String) (fresh : FreshIds)
    (jp : String → Except String JsVal)
    (req : Req) (options : HttpReqOptions) (locals : Locals) (now : Int) :
    HttpRequestResult :=
  let traceId := orStr options.traceId (orStr ambient fresh.traceId)
  let requestId := orStr options.requestId fresh.requestId
  let startTime := orNum options.startTime now
  let locals' :=
    if req.hasRes then
      { locals with
        requestId := some requestId
        startTime := some startTime
        traceId := some traceId
        workflowId := some cfg.workflowId
        workflowUrl := some cfg.workflowUrl
        serviceId := some cfg.serviceId }
    else locals
  { record :=
    { logId := fresh.logId
      type := "httpRequest"
      message := if req.ip = some "outgoing" then "Outgoing HTTP Request" else "Incoming HTTP Request"
      workflowId := cfg.workflowId
      serviceId := cfg.serviceId
      traceId := traceId
      requestId := requestId
      deploymentId := cfg.deploymentId
      duration := 0
      httpRequest :=
      { url := constructFullUrl cfg req
        method := req.method
        headers := filterHeaders req.headers
        ip := normalizeIp req.ip
        body := safeJsonParse jp req.body } }
    emitLevel := orLevel options.level .info
    locals := locals' }

/-- Options of `httpResponse` (`HttpResponseLogOptions`). -/
structure HttpRespOptions where
  traceId : Option String := none
  requestId : Option String := none
  startTime : Option Int := none
  duration : Option Int := none
  level : Option LogLevel := none

/-- Payload of an httpResponse record. -/
structure HttpRespPayload where
  url : String
  method : String
  headers : List (String × String)
  ip : Option String
  status : Nat
  body : JsVal

/-- An emitted httpResponse record (`HttpResponseLog`). -/
structure HttpResponseRecord where
  logId : String
  type : String
  message : String
  workflowId : String
  serviceId : String
  traceId : String
  requestId : String
  deploymentId : String
  duration : Int
  httpResponse : HttpRespPayload

/-- Outcome of an `httpResponse` call: the record and the engine method used. -/
structure HttpResponseResult where
  record : HttpResponseRecord
  emitLevel : LogLevel

/-- Logs an HTTP response (`UnnboundLogger.httpResponse`).  Correlation data
is recovered from `res.locals`, then from `options`, then minted fresh; the
severity is `options.level` when present, otherwise derived from the status
code (`statusCode >= 400` gives error, anything else info). -/
def httpResponse (cfg : Config) (ambient : Option String) (fresh : FreshIds)
    (jp : String → Except String JsVal)
    (res : Res) (req : Req) (options : HttpRespOptions) (now : Int) :
    HttpResponseResult :=
  let requestId := orStr res.locals.requestId (orStr options.requestId fresh.requestId)
  let startTime := orNum res.locals.startTime (orNum options.startTime now)
  let workflowId := orStr res.locals.workflowId cfg.workflowId
  let serviceId := orStr res.locals.serviceId cfg.serviceId
  let traceId := orStr res.locals.traceId (orStr options.traceId (orStr ambient fresh.traceId))
  let duration := orNum options.duration (now - startTime)
  let level :=
    match options.level with
    | some l => l
    | none => if res.statusCode ≥ 400 then LogLevel.error else LogLevel.info
  { record :=
    { logId := fresh.logId
      type := "httpResponse"
      message := getStatusMessage res.statusCode
      workflowId := workflowId
      serviceId := serviceId
      traceId := traceId
      requestId := requestId
      deploymentId := cfg.deploymentId
      duration := duration
      httpResponse :=
      { url := constructFullUrl cfg req
        method := req.method
        headers := filterHeaders res.headers
        ip := normalizeIp req.ip
        status := res.statusCode
        body := safeJsonParse jp res.locals.body } }
    emitLevel := level }

/-!
Transaction logging (`UnnboundLogger.sftpTransaction` /
`UnnboundLogger.dbQueryTransaction`).
-/

/-- SFTP operation kinds. -/
inductive SftpOpKind where
  | upload | download | list | delete | rename | stat
deriving DecidableEq, Repr

/-- Transaction status. -/
inductive TxStatus where
  | success | failure
deriving DecidableEq, Repr

/-- Name of an SFTP operation kind as it appears in messages. -/
def sftpOpName : SftpOpKind → String
  | .upload => "upload"
  | .download => "download"
  | .list => "list"
  | .delete => "delete"
  | .rename => "rename"
  | .stat => "stat"

/-- Name of a transaction status as it appears in messages. -/
def txStatusName : TxStatus → String
  | .success => "success"
  | .failure => "failure"

/-- The SFTP operation argument of `sftpTransaction`. -/
structure SftpOp where
  host : String
  username : String
  operation : SftpOpKind
  path : String
  status : TxStatus
  bytesTransferred : Option Int := none
  filesListed : Option Int := none
  sourcePath : Option String := none

/-- Options of the transaction loggers (`SftpTransactionLogOptions` /
`DbQueryTransactionLogOptions` as the source reads them). -/
structure TxOptions where
  traceId : Option String := none
  requestId : Option String := none
  duration : Option Int := none
  startTime : Option Int := none

/-- An emitted sftpTransaction record (`SftpTransactionLog`). -/
structure SftpTransactionRecord where
  logId : String
  type : String
  message : String
  workflowId : String
  serviceId : String
  traceId : String
  requestId : String
  deploymentId : String
  duration : Int
  sftp : SftpOp

/-- Outcome of an `sftpTransaction` call: the record and the engine method. -/
structure SftpResult where
  record : SftpTransactionRecord
  emitLevel : LogLevel

/-- The `options.duration || (options.startTime ? Date.now() - options.startTime : 0)`
chain common to both transaction loggers. -/
def txDuration (options : TxOptions) (now : Int) : Int :=
  orNum options.duration
    (match options.startTime with
     | some t => if t = 0 then 0 else now - t
     | none => 0)

/-- Logs an SFTP transaction (`UnnboundLogger.sftpTransaction`). -/
def sftpTransaction (cfg : Config) (ambient : Option String) (fresh : FreshIds)
    (operation : SftpOp) (options : TxOptions) (now : Int) : SftpResult :=
  let traceId := orStr options.traceId (orStr ambient fresh.traceId)
  let requestId := orStr options.requestId fresh.requestId
  let duration := txDuration options now
  let level := match operation.status with
    | .success => LogLevel.info
    | .failure => LogLevel.error
  { record :=
    { logId := fresh.logId
      type := "sftpTransaction"
      message := "SFTP " ++ sftpOpName operation.operation ++ " " ++
        txStatusName operation.status ++ " - " ++ operation.path
      workflowId := cfg.workflowId
      serviceId := cfg.serviceId
      traceId := traceId
      requestId := requestId
      deploymentId := cfg.deploymentId
      duration := duration
      sftp := operation }
    emitLevel := level }

/-- Database vendors. -/
inductive DbVendor where
  | postgres | mysql | mssql | mongodb
deriving DecidableEq, Repr

/-- Name of a database vendor as it appears in messages. -/
def dbVendorName : DbVendor → String
  | .postgres => "postgres"
  | .mysql => "mysql"
  | .mssql => "mssql"
  | .mongodb => "mongodb"

/-- The query argument of `dbQueryTransaction` (source field `instance` is
named `dbInstance` here because `instance` is a Lean keyword). -/
structure DbQuery where
  dbInstance : String
  vendor : DbVendor
  query : Option String := none
  status : TxStatus
  rowsReturned : Option Int := none
  rowsAffected : Option Int := none

/-- An emitted dbQueryTransaction record (`DbQueryTransactionLog`). -/
structure DbQueryTransactionRecord where
  logId : String
  type : String
  message : String
  workflowId : String
  serviceId : String
  traceId : String
  requestId : String
  deploymentId : String
  duration : Int
  db : DbQuery

/-- Outcome of a `dbQueryTransaction` call. -/
structure DbResult where
  record : DbQueryTransactionRecord
  emitLevel : LogLevel

/-- Logs a database query transaction (`UnnboundLogger.dbQueryTransaction`). -/
def dbQueryTransaction (cfg : Config) (ambient : Option String) (fresh : FreshIds)
    (query : DbQuery) (options : TxOptions) (now : Int) : DbResult :=
  let traceId := orStr options.traceId (orStr ambient fresh.traceId)
  let requestId := orStr options.requestId fresh.requestId
  let duration := txDuration options now
  let level := match query.status with
    | .success => LogLevel.info
    | .failure => LogLevel.error
  { record :=
    { logId := fresh.logId
      type := "dbQueryTransaction"
      message := "DB Query " ++ txStatusName query.status ++ " - " ++ dbVendorName query.vendor
      workflowId := cfg.workflowId
      serviceId := cfg.serviceId
      traceId := traceId
      requestId := requestId
      deploymentId := cfg.deploymentId
      duration := duration
      db := query }
    emitLevel := level }

/-!
Inbound trace middleware (`UnnboundLogger.traceMiddleware`), modelled as its
control decision: when the request path matches an ignore pattern the
middleware returns `next()` untouched (no header write, no trace scope, no
request/response logging); otherwise it computes the trace id from the
inbound header or a fresh uuid, echoes it on the response, and invokes the
handler inside `traceContext.run(traceId, ...)`.
-/

/-- What `traceMiddleware` does with a request. -/
inductive MwAction where
  | passthrough
  | traced (traceId : String)
deriving DecidableEq, Repr

/-- The control decision of `UnnboundLogger.traceMiddleware`:
`incomingTraceHeader` is `req.header(this.traceHeaderKey)` and `fresh` the
`uuidv4()` fallback. -/
def traceMiddleware (cfg : Config) (path : String)
    (incomingTraceHeader : Option String) (fresh : String) : MwAction :=
  if shouldIgnorePath path cfg.ignoreTraceRoutes then .passthrough
  else .traced (orStr incomingTraceHeader fresh)

/-!
Statement helpers (used only to phrase the properties below, not part of the
embedded program).
-/

/-- A `string | undefined` value is JavaScript-falsy: absent or empty. -/
def strFalsy : Option String → Prop
  | none => True
  | some s => s = ""

/-- A `number | undefined` value is JavaScript-falsy: absent or zero. -/
def numFalsy : Option Int → Prop
  | none => True
  | some n => n = 0

/-- A runtime message value that does not itself carry a `traceId` field
(a structured-object message with a `traceId` key overwrites the record's
`traceId` on spread). -/
def msgNoTraceId : JsMessage → Prop
  | .obj fields => objGet fields "traceId" = none
  | _ => True

/-!
Shared lemmas about the JavaScript fallback chains and object primitives.
-/

theorem orStr_of_falsy (a : Option String) (b : String) (h : strFalsy a) : orStr a b = b := by
  cases a with
  | none => rfl
  | some s =>
    have hs : s = "" := h
    simp [orStr, hs]

theorem orStr_of_ne (s b : String) (h : s ≠ "") : orStr (some s) b = s := by
  simp [orStr, h]

theorem orStr_ne_empty (a : Option String) (b : String) (hb : b ≠ "") : orStr a b ≠ "" := by
  cases a with
  | none => exact hb
  | some s =>
    by_cases hs : s = ""
    · rw [orStr_of_falsy (some s) b hs]; exact hb
    · rw [orStr_of_ne s b hs]; exact hs

theorem orNum_of_falsy (a : Option Int) (b : Int) (h : numFalsy a) : orNum a b = b := by
  cases a with
  | none => rfl
  | some n =>
    have hn : n = 0 := h
    simp [orNum, hn]

theorem orNum_of_ne (n b : Int) (h : n ≠ 0) : orNum (some n) b = n := by
  simp [orNum, h]

theorem objGet_objSet_self (o : List (String × JsVal)) (k : String) (v : JsVal) :
    objGet (objSet o k v) k = some v := by
  induction o with
  | nil => simp [objSet, objGet]
  | cons p rest ih =>
    by_cases hp : p.1 = k
    · simp [objSet, hp, objGet]
    · simp [objSet, hp, objGet, ih]

theorem objGet_objSet_ne (o : List (String × JsVal)) (k k' : String) (v : JsVal)
    (h : k' ≠ k) : objGet (objSet o k v) k' = objGet o k' := by
  have hne : ¬ (k = k') := fun he => h he.symm
  induction o with
  | nil => simp [objSet, objGet, hne]
  | cons p rest ih =>
    by_cases hp : p.1 = k
    · simp [objSet, hp, objGet, hne]
    · simp [objSet, hp, objGet, ih]

theorem objGet_objSpread_not_mem (k : String) :
    ∀ (fields : List (String × JsVal)), (∀ p ∈ fields, p.1 ≠ k) →
      ∀ o, objGet (objSpread o fields) k = objGet o k := by
  intro fields
  induction fields with
  | nil => intro _ o; rfl
  | cons f fs ih =>
    intro h o
    have h1 : ∀ p ∈ fs, p.1 ≠ k := fun p hp => h p (List.mem_cons_of_mem f hp)
    have h2 : f.1 ≠ k := h f (List.mem_cons_self f fs)
    calc objGet (objSpread o (f :: fs)) k
        = objGet (objSpread (objSet o f.1 f.2) fs) k := rfl
      _ = objGet (objSet o f.1 f.2) k := ih h1 (objSet o f.1 f.2)
      _ = objGet o k := objGet_objSet_ne o f.1 k f.2 h2.symm

theorem objGet_objRemove_self (o : List (String × JsVal)) (k : String) :
    objGet (objRemove o k) k = none := by
  induction o with
  | nil => rfl
  | cons p rest ih =>
    by_cases hp : p.1 = k
    · simp [objRemove, hp, ih]
    · simp [objRemove, hp, objGet, ih]

theorem objGet_objRemove_ne (o : List (String × JsVal)) (k k' : String)
    (h : k' ≠ k) : objGet (objRemove o k) k' = objGet o k' := by
  have hne : ¬ (k = k') := fun he => h he.symm
  induction o with
  | nil => rfl
  | cons p rest ih =>
    by_cases hp : p.1 = k
    · simp [objRemove, hp, objGet, hne, ih]
    · simp [objRemove, hp, objGet, ih]

theorem globMatch_anyRun (cs : List Char) : globMatch [.anyRun] cs = cs.all jsDot := by
  simp only [globMatch]
  rw [Bool.eq_iff_iff]
  simp only [List.any_eq_true, List.all_eq_true, List.mem_range, Bool.and_eq_true]
  constructor
  · rintro ⟨n, _, hall, hdrop⟩
    have hlen : cs.length ≤ n :=
      List.drop_eq_nil_iff.mp (List.isEmpty_iff.mp hdrop)
    have htake : cs.take n = cs := List.take_of_length_le hlen
    intro c hc
    rw [← htake] at hc
    exact hall c hc
  · intro h
    refine ⟨cs.length, by omega, fun c hc => h c ?_, by simp⟩
    simpa [List.take_length] using hc

theorem globMatch_lit_cons (c : Char) (ts : List GlobTok) (xs : List Char) :
    globMatch (.lit c :: ts) (c :: xs) = globMatch ts xs := by
  simp [globMatch]

theorem globMatch_anyRun_of_all (cs : List Char) (h : ∀ c ∈ cs, jsDot c = true) :
    globMatch [.anyRun] cs = true := by
  rw [globMatch_anyRun]
  exact List.all_eq_true.mpr h

/-!
Claim C1: context isolation of the Trace Context Store.
-/

/-- Invariant lemma for the two-task scheduler: if task A's continuation
chain carries snapshot `idA` and task B's carries `idB`, every observation of
`getTraceId()` made while A runs sees `idA` and every one made while B runs
sees `idB`, for every interleaving. -/
theorem runSched_isolated (idA idB : String) :
    ∀ (sched : List Bool) (sys : Sys),
      sys.taskA.ctx = some idA → sys.taskB.ctx = some idB →
      ∀ obs ∈ runSched sys sched,
        (obs.1 = true → obs.2 = some idA) ∧ (obs.1 = false → obs.2 = some idB) := by
  intro sched
  induction sched with
  | nil =>
    intro sys hA hB obs hobs
    simp [runSched] at hobs
  | cons pick rest ih =>
    intro sys hA hB obs hobs
    cases pick with
    | true =>
      rcases hp : sys.taskA.prog with _ | ⟨a, p⟩
      · have hrw : runSched sys (true :: rest) =
            runSched ⟨sys.taskA.ctx, sys.taskA, sys.taskB⟩ rest := by
          simp [runSched, hp]
        rw [hrw] at hobs
        exact ih ⟨sys.taskA.ctx, sys.taskA, sys.taskB⟩ hA hB obs hobs
      · cases a with
        | readTid =>
          have hrw : runSched sys (true :: rest) =
              (true, sys.taskA.ctx) ::
                runSched ⟨sys.taskA.ctx, ⟨sys.taskA.ctx, p⟩, sys.taskB⟩ rest := by
            simp [runSched, hp]
          rw [hrw] at hobs
          rcases List.mem_cons.mp hobs with he | hm
          · subst he
            exact ⟨fun _ => hA, fun hfalse => nomatch hfalse⟩
          · exact ih ⟨sys.taskA.ctx, ⟨sys.taskA.ctx, p⟩, sys.taskB⟩ hA hB obs hm
        | compute =>
          have hrw : runSched sys (true :: rest) =
              runSched ⟨sys.taskA.ctx, ⟨sys.taskA.ctx, p⟩, sys.taskB⟩ rest := by
            simp [runSched, hp]
          rw [hrw] at hobs
          exact ih ⟨sys.taskA.ctx, ⟨sys.taskA.ctx, p⟩, sys.taskB⟩ hA hB obs hobs
    | false =>
      rcases hp : sys.taskB.prog with _ | ⟨a, p⟩
      · have hrw : runSched sys (false :: rest) =
            runSched ⟨sys.taskB.ctx, sys.taskA, sys.taskB⟩ rest := by
          simp [runSched, hp]
        rw [hrw] at hobs
        exact ih ⟨sys.taskB.ctx, sys.taskA, sys.taskB⟩ hA hB obs hobs
      · cases a with
        | readTid =>
          have hrw : runSched sys (false :: rest) =
              (false, sys.taskB.ctx) ::
                runSched ⟨sys.taskB.ctx, sys.taskA, ⟨sys.taskB.ctx, p⟩⟩ rest := by
            simp [runSched, hp]
          rw [hrw] at hobs
          rcases List.mem_cons.mp hobs with he | hm
          · subst he
            exact ⟨fun htrue => (nomatch htrue), fun _ => hB⟩
          · exact ih ⟨sys.taskB.ctx, sys.taskA, ⟨sys.taskB.ctx, p⟩⟩ hA hB obs hm
        | compute =>
          have hrw : runSched sys (false :: rest) =
              runSched ⟨sys.taskB.ctx, sys.taskA, ⟨sys.taskB.ctx, p⟩⟩ rest := by
            simp [runSched, hp]
          rw [hrw] at hobs
          exact ih ⟨sys.taskB.ctx, sys.taskA, ⟨sys.taskB.ctx, p⟩⟩ hA hB obs hobs

/-- Claim C1 (confirmed): for two concurrently-interleaved logical tasks A
and B started with `run(idA, ...)` and `run(idB, ...)`, every `getTraceId()`
call executed within A's continuation chain returns `idA` and every one
within B's returns `idB`, for every interleaving schedule. -/
theorem C1_context_isolation (idA idB : String) (progA progB : List Act)
    (sched : List Bool) (obs : Bool × Option String)
    (hobs : obs ∈ runSched (initSys idA progA idB progB) sched) :
    (obs.1 = true → obs.2 = some idA) ∧ (obs.1 = false → obs.2 = some idB) :=
  runSched_isolated idA idB sched (initSys idA progA idB progB) rfl rfl obs hobs

/-- Witness for C1 at a concrete interleaving: with A = `run("idA", ...)`
reading twice around a suspension and B = `run("idB", ...)` reading once,
interleaved A,B,A,A, the first observation belongs to A and reads `idA`. -/
theorem C1_context_isolation_witness :
    ((true, some "idA") ∈
        runSched (initSys "idA" [Act.readTid, Act.compute, Act.readTid]
          "idB" [Act.readTid]) [true, false, true, true]) ∧
      (true, some "idA").2 = some "idA" :=
  ⟨by decide,
    (C1_context_isolation "idA" "idB" [Act.readTid, Act.compute, Act.readTid]
      [Act.readTid] [true, false, true, true] (true, some "idA") (by decide)).1 rfl⟩

/-!
Claim C2: status-to-severity mapping of `httpResponse`.
-/

/-- Counterexample to C2 as stated: with no explicit level, a 404 response is
emitted at level error, not warn (the source has no warn tier: any status
`>= 400` maps to error). -/
theorem C2_counterexample :
    (httpResponse {} none ⟨"L", "T", "R"⟩ (fun _ => .error "SyntaxError")
        ⟨404, {}, []⟩ {} {} 0).emitLevel = LogLevel.error ∧
      LogLevel.error ≠ LogLevel.warn :=
  ⟨rfl, by decide⟩

/-- Claim C2 (amended): when `options.level` is not supplied, the emitted
record's level is error for status `>= 400` (including the whole 400..499
range) and info otherwise; when `options.level` is supplied it always
overrides the derived value. -/
theorem C2_status_severity (cfg : Config) (ambient : Option String)
    (fresh : FreshIds) (jp : String → Except String JsVal)
    (res : Res) (req : Req) (options : HttpRespOptions) (now : Int) :
    (options.level = none →
      (httpResponse cfg ambient fresh jp res req options now).emitLevel =
        (if 400 ≤ res.statusCode then LogLevel.error else LogLevel.info)) ∧
    (∀ l, options.level = some l →
      (httpResponse cfg ambient fresh jp res req options now).emitLevel = l) := by
  constructor
  · intro hnone
    simp [httpResponse, hnone]
  · intro l hl
    simp [httpResponse, hl]

/-- Witness for C2 at concrete inputs: status 200 with no explicit level is
emitted at info, and an explicit warn level overrides a 500 status. -/
theorem C2_status_severity_witness :
    (httpResponse {} none ⟨"L", "T", "R"⟩ (fun _ => .error "SyntaxError")
        ⟨200, {}, []⟩ {} {} 0).emitLevel = LogLevel.info ∧
    (httpResponse {} none ⟨"L", "T", "R"⟩ (fun _ => .error "SyntaxError")
        ⟨500, {}, []⟩ {} { level := some LogLevel.warn } 0).emitLevel = LogLevel.warn := by
  constructor
  · have h := (C2_status_severity {} none ⟨"L", "T", "R"⟩ (fun _ => .error "SyntaxError")
      ⟨200, {}, []⟩ {} {} 0).1 rfl
    rw [if_neg (by decide : ¬ (400 ≤ 200))] at h
    exact h
  · exact (C2_status_severity {} none ⟨"L", "T", "R"⟩ (fun _ => .error "SyntaxError")
      ⟨500, {}, []⟩ {} { level := some LogLevel.warn } 0).2 LogLevel.warn rfl

/-!
Claim C3: request/response correlation and its fallback chain.
-/

/-- Claim C3 (confirmed): (a) when `httpRequest(req)` emits a record with
requestId R (storing R and the start time on the paired response's locals), a
subsequent `httpResponse(res, req, {})` on the same pair emits requestId R;
(b) when the stored values are absent, `httpResponse` falls back to
`options.requestId` / `options.startTime` (a supplied non-empty id and a
nonzero start time); and (c) when those are also absent it mints the fresh
requestId (non-empty) and computes a duration of `now - now = 0` from the
call time, returning a record in every case (the model is total: no code
path raises). -/
theorem C3_request_response_correlation (cfg : Config) (fresh1 fresh2 : FreshIds)
    (h1 : fresh1.requestId ≠ "") (h2 : fresh2.requestId ≠ "") :
    (∀ ambient1 ambient2 jp1 jp2 req opts1 locals now1 now2 sc rhdrs req2,
      req.hasRes = true →
      (httpResponse cfg ambient2 fresh2 jp2
          ⟨sc, (httpRequest cfg ambient1 fresh1 jp1 req opts1 locals now1).locals, rhdrs⟩
          req2 {} now2).record.requestId =
        (httpRequest cfg ambient1 fresh1 jp1 req opts1 locals now1).record.requestId) ∧
    (∀ ambient jp sc locals rhdrs req opts now r,
      locals.requestId = none → opts.requestId = some r → r ≠ "" →
      (httpResponse cfg ambient fresh2 jp ⟨sc, locals, rhdrs⟩ req opts now).record.requestId = r) ∧
    (∀ ambient jp sc locals rhdrs req opts now t,
      locals.startTime = none → opts.startTime = some t → t ≠ 0 → opts.duration = none →
      (httpResponse cfg ambient fresh2 jp ⟨sc, locals, rhdrs⟩ req opts now).record.duration =
        now - t) ∧
    (∀ ambient jp sc locals rhdrs req now,
      locals.requestId = none → locals.startTime = none →
      (httpResponse cfg ambient fresh2 jp ⟨sc, locals, rhdrs⟩ req {} now).record.requestId =
          fresh2.requestId ∧
        (httpResponse cfg ambient fresh2 jp ⟨sc, locals, rhdrs⟩ req {} now).record.requestId ≠ "" ∧
        (httpResponse cfg ambient fresh2 jp ⟨sc, locals, rhdrs⟩ req {} now).record.duration = 0) := by
  refine ⟨?_, ?_, ?_, ?_⟩
  · intro ambient1 ambient2 jp1 jp2 req opts1 locals now1 now2 sc rhdrs req2 hres
    have hne : (httpRequest cfg ambient1 fresh1 jp1 req opts1 locals now1).record.requestId ≠ "" :=
      orStr_ne_empty _ _ h1
    have hR : (httpRequest cfg ambient1 fresh1 jp1 req opts1 locals now1).locals.requestId =
        some ((httpRequest cfg ambient1 fresh1 jp1 req opts1 locals now1).record.requestId) := by
      simp [httpRequest, hres]
    show orStr (httpRequest cfg ambient1 fresh1 jp1 req opts1 locals now1).locals.requestId
        (orStr none fresh2.requestId) =
      (httpRequest cfg ambient1 fresh1 jp1 req opts1 locals now1).record.requestId
    rw [hR, orStr_of_ne _ _ hne]
  · intro ambient jp sc locals rhdrs req opts now r hloc hopt hr
    show orStr locals.requestId (orStr opts.requestId fresh2.requestId) = r
    rw [hloc, hopt]
    exact orStr_of_ne _ _ hr
  · intro ambient jp sc locals rhdrs req opts now t hloc hopt ht hdur
    show orNum opts.duration
        (now - orNum locals.startTime (orNum opts.startTime now)) = now - t
    rw [hloc, hopt, hdur]
    show orNum none (now - orNum none (orNum (some t) now)) = now - t
    rw [orNum_of_ne _ _ ht]
    rfl
  · intro ambient jp sc locals rhdrs req now hreq hst
    refine ⟨?_, ?_, ?_⟩
    · show orStr locals.requestId (orStr none fresh2.requestId) = fresh2.requestId
      rw [hreq]
      rfl
    · show orStr locals.requestId (orStr none fresh2.requestId) ≠ ""
      exact orStr_ne_empty _ _ (orStr_ne_empty _ _ h2)
    · show orNum none (now - orNum locals.startTime (orNum none now)) = 0
      rw [hst]
      show orNum none (now - now) = 0
      simp [orNum]

/-- Witness for C3 at concrete inputs: a paired request/response with stored
correlation reuses the request's id; an explicit option id is used when the
stash is absent; with neither, the fresh id is minted and the duration is 0. -/
theorem C3_request_response_correlation_witness :
    ((httpResponse {} none ⟨"L2", "T2", "R2"⟩ (fun _ => .error "SyntaxError")
        ⟨200,
          (httpRequest {} none ⟨"L1", "T1", "R1"⟩ (fun _ => .error "SyntaxError")
            { hasRes := true } {} {} 100).locals, []⟩
        { method := "GET" } {} 150).record.requestId =
      (httpRequest {} none ⟨"L1", "T1", "R1"⟩ (fun _ => .error "SyntaxError")
        { hasRes := true } {} {} 100).record.requestId) ∧
    ((httpResponse {} none ⟨"L2", "T2", "R2"⟩ (fun _ => .error "SyntaxError")
        ⟨200, {}, []⟩ { method := "GET" } { requestId := some "opt-id" } 150).record.requestId =
      "opt-id") ∧
    ((httpResponse {} none ⟨"L2", "T2", "R2"⟩ (fun _ => .error "SyntaxError")
        ⟨200, {}, []⟩ { method := "GET" } {} 150).record.requestId = "R2" ∧
      (httpResponse {} none ⟨"L2", "T2", "R2"⟩ (fun _ => .error "SyntaxError")
        ⟨200, {}, []⟩ { method := "GET" } {} 150).record.requestId ≠ "" ∧
      (httpResponse {} none ⟨"L2", "T2", "R2"⟩ (fun _ => .error "SyntaxError")
        ⟨200, {}, []⟩ { method := "GET" } {} 150).record.duration = 0) := by
  have h := C3_request_response_correlation {} ⟨"L1", "T1", "R1"⟩ ⟨"L2", "T2", "R2"⟩
    (by decide) (by decide)
  exact ⟨h.1 none none (fun _ => .error "SyntaxError") (fun _ => .error "SyntaxError")
      { hasRes := true } {} {} 100 150 200 [] { method := "GET" } rfl,
    h.2.1 none (fun _ => .error "SyntaxError") 200 {} [] { method := "GET" }
      { requestId := some "opt-id" } 150 "opt-id" rfl rfl (by decide),
    h.2.2.2 none (fun _ => .error "SyntaxError") 200 {} [] { method := "GET" } 150 rfl rfl⟩

/-!
Claim C5: the no-throw guarantee.  The source violates it: in the
structured-object branch `log` reads `(message as {message?: string}).message`,
and for a `null` (or `undefined`) message this property access raises a
`TypeError` at runtime (`null instanceof Error` is false and
`typeof null === 'object'`, so the else branch is taken; spreading `null` is
harmless but the subsequent property read throws).
-/

/-- Claim C5 (code bug): `log(level, null)` raises a TypeError instead of
degrading to a best-effort record, for every configuration, ambient scope,
fresh ids, level, and options — contradicting the documented failure
semantics that no logging operation ever throws. -/
theorem C5_log_null_raises (cfg : Config) (ambient : Option String)
    (fresh : FreshIds) (level : LogLevel) (options : GenOptions) :
    (log cfg ambient fresh level JsMessage.nullV options).isOk = false ∧
    (log cfg ambient fresh level JsMessage.undef options).isOk = false :=
  ⟨rfl, rfl⟩

/-!
Claim C4: trace-id totality invariant.
-/

theorem mem_keys_ne_of_objGet_none (o : List (String × JsVal)) (k : String)
    (h : objGet o k = none) : ∀ p ∈ o, p.1 ≠ k := by
  induction o with
  | nil => intro p hp; cases hp
  | cons q rest ih =>
    intro p hp
    by_cases hq : q.1 = k
    · simp only [objGet, hq, if_pos] at h
      simp at h
    · have hrest : objGet rest k = none := by
        simpa only [objGet, hq, if_neg, if_false] using h
      rcases List.mem_cons.mp hp with he | hm
      · subst he; exact hq
      · exact ih hrest p hm

theorem filter_reserved_ne (extra : List (String × JsVal)) :
    ∀ p ∈ extra.filter
      (fun p => !(p.1 == "traceId" || p.1 == "requestId" || p.1 == "level")),
      p.1 ≠ "traceId" ∧ p.1 ≠ "requestId" ∧ p.1 ≠ "level" := by
  intro p hp
  have h := (List.mem_filter.mp hp).2
  simp [not_or] at h
  exact ⟨h.1.1, h.1.2, h.2⟩

/-- Bridge lemma: for any message that does not itself carry a `traceId`
field, the emitted merge object of `log` binds `traceId` to the value of the
`options.traceId || traceContext.getTraceId() || uuidv4()` chain. -/
theorem log_logData_traceId (cfg : Config) (ambient : Option String) (fresh : FreshIds)
    (level : LogLevel) (message : JsMessage) (options : GenOptions) (r : LogResult)
    (hmsg : msgNoTraceId message)
    (hok : log cfg ambient fresh level message options = .ok r) :
    objGet r.logData "traceId" =
      some (.vStr (orStr options.traceId (orStr ambient fresh.traceId))) := by
  have hrest := filter_reserved_ne options.extra
  cases message with
  | nullV => exact absurd hok (by simp [log])
  | undef => exact absurd hok (by simp [log])
  | str s =>
    simp only [log, Except.ok.injEq] at hok
    subst hok
    simp only [mkLogResult]
    rw [objGet_objRemove_ne _ _ _ (show ("traceId" : String) ≠ "level" by decide),
        objGet_objRemove_ne _ _ _ (show ("traceId" : String) ≠ "message" by decide),
        objGet_objSpread_not_mem "traceId" _ (fun p hp => (hrest p hp).1),
        objGet_objSet_ne _ _ _ _ (show ("traceId" : String) ≠ "message" by decide)]
    rfl
  | errObj name msg stack =>
    simp only [log, Except.ok.injEq] at hok
    subst hok
    simp only [mkLogResult]
    rw [objGet_objRemove_ne _ _ _ (show ("traceId" : String) ≠ "level" by decide),
        objGet_objRemove_ne _ _ _ (show ("traceId" : String) ≠ "message" by decide),
        objGet_objSpread_not_mem "traceId" _ (fun p hp => (hrest p hp).1),
        objGet_objSet_ne _ _ _ _ (show ("traceId" : String) ≠ "error" by decide),
        objGet_objSet_ne _ _ _ _ (show ("traceId" : String) ≠ "message" by decide)]
    rfl
  | obj fields =>
    have hfields : ∀ p ∈ fields, p.1 ≠ "traceId" :=
      mem_keys_ne_of_objGet_none fields "traceId" hmsg
    simp only [log, Except.ok.injEq] at hok
    subst hok
    simp only [mkLogResult]
    rw [objGet_objRemove_ne _ _ _ (show ("traceId" : String) ≠ "level" by decide),
        objGet_objRemove_ne _ _ _ (show ("traceId" : String) ≠ "message" by decide),
        objGet_objSpread_not_mem "traceId" _ (fun p hp => (hrest p hp).1),
        objGet_objSet_ne _ _ _ _ (show ("traceId" : String) ≠ "message" by decide),
        objGet_objSpread_not_mem "traceId" fields hfields]
    rfl
  | num n =>
    simp only [log, Except.ok.injEq] at hok
    subst hok
    simp only [mkLogResult]
    rw [objGet_objRemove_ne _ _ _ (show ("traceId" : String) ≠ "level" by decide),
        objGet_objRemove_ne _ _ _ (show ("traceId" : String) ≠ "message" by decide),
        objGet_objSpread_not_mem "traceId" _ (fun p hp => (hrest p hp).1),
        objGet_objSet_ne _ _ _ _ (show ("traceId" : String) ≠ "message" by decide)]
    rfl
  | bool b =>
    simp only [log, Except.ok.injEq] at hok
    subst hok
    simp only [mkLogResult]
    rw [objGet_objRemove_ne _ _ _ (show ("traceId" : String) ≠ "level" by decide),
        objGet_objRemove_ne _ _ _ (show ("traceId" : String) ≠ "message" by decide),
        objGet_objSpread_not_mem "traceId" _ (fun p hp => (hrest p hp).1),
        objGet_objSet_ne _ _ _ _ (show ("traceId" : String) ≠ "message" by decide)]
    rfl

theorem orStr_chain_scope (a : Option String) (s c : String)
    (ha : strFalsy a) (hs : s ≠ "") :
    orStr a (orStr (some s) c) = s := by
  rw [orStr_of_falsy _ _ ha, orStr_of_ne _ _ hs]

/-- Counterexample to C4 as stated, exhibiting two concrete failures.
First, inside an active scope `"scope-id"`, an `httpResponse` whose paired
locals carry a stored `"stored-id"` emits the stored id, not the active
scope's id, even though options carry no override (the source prefers
`res.locals.traceId` over the ambient scope).  Second, inside the same
active scope, `log` called with the object message `{traceId: ""}` emits a
record whose `traceId` is the empty string — neither the scope's id nor
non-empty — because the spread `{...baseEntry, ...message}` lets the
message's own `traceId` field overwrite the record's. -/
theorem C4_counterexample :
    ((httpResponse {} (some "scope-id") ⟨"L", "T", "R"⟩ (fun _ => .error "SyntaxError")
        ⟨200, { traceId := some "stored-id" }, []⟩ {} {} 0).record.traceId = "stored-id" ∧
      "stored-id" ≠ "scope-id") ∧
    ((log {} (some "scope-id") ⟨"L", "T", "R"⟩ .info
        (.obj [("traceId", .vStr "")]) {}).map (fun r => objGet r.logData "traceId") =
          .ok (some (.vStr "")) ∧
      ("" : String) ≠ "scope-id" ∧ ("" : String).length = 0) :=
  ⟨⟨rfl, by decide⟩, ⟨rfl, by decide, rfl⟩⟩

/-- Claim C4 (amended): every emitted record carries a non-empty traceId
(provided the message passed to `log` does not itself carry a `traceId`
field, which the merge would let clobber the record's).  For `log`,
`httpRequest`, `sftpTransaction` and `dbQueryTransaction`: while a scope with
a non-empty id is active and options carry no truthy override, the record
carries the scope's id; outside any scope with no override, the record
carries the freshly minted id.  `httpResponse` first prefers a non-empty
stored `res.locals.traceId` over both the options and the active scope, and
otherwise behaves likewise. -/
theorem C4_traceId_totality (cfg : Config) (fresh : FreshIds)
    (hfresh : fresh.traceId ≠ "") :
    (∀ ambient level message options r, msgNoTraceId message →
      log cfg ambient fresh level message options = .ok r →
      ∃ t, objGet r.logData "traceId" = some (.vStr t) ∧ t ≠ "" ∧
        (∀ s, ambient = some s → s ≠ "" → strFalsy options.traceId → t = s) ∧
        (ambient = none → options.traceId = none → t = fresh.traceId)) ∧
    (∀ ambient jp req options locals now,
      (httpRequest cfg ambient fresh jp req options locals now).record.traceId ≠ "" ∧
      (∀ s, ambient = some s → s ≠ "" → strFalsy options.traceId →
        (httpRequest cfg ambient fresh jp req options locals now).record.traceId = s) ∧
      (ambient = none → options.traceId = none →
        (httpRequest cfg ambient fresh jp req options locals now).record.traceId =
          fresh.traceId)) ∧
    (∀ ambient op options now,
      (sftpTransaction cfg ambient fresh op options now).record.traceId ≠ "" ∧
      (∀ s, ambient = some s → s ≠ "" → strFalsy options.traceId →
        (sftpTransaction cfg ambient fresh op options now).record.traceId = s) ∧
      (ambient = none → options.traceId = none →
        (sftpTransaction cfg ambient fresh op options now).record.traceId =
          fresh.traceId)) ∧
    (∀ ambient q options now,
      (dbQueryTransaction cfg ambient fresh q options now).record.traceId ≠ "" ∧
      (∀ s, ambient = some s → s ≠ "" → strFalsy options.traceId →
        (dbQueryTransaction cfg ambient fresh q options now).record.traceId = s) ∧
      (ambient = none → options.traceId = none →
        (dbQueryTransaction cfg ambient fresh q options now).record.traceId =
          fresh.traceId)) ∧
    (∀ ambient jp res req options now,
      (httpResponse cfg ambient fresh jp res req options now).record.traceId ≠ "" ∧
      (∀ t, res.locals.traceId = some t → t ≠ "" →
        (httpResponse cfg ambient fresh jp res req options now).record.traceId = t) ∧
      (∀ s, strFalsy res.locals.traceId → ambient = some s → s ≠ "" →
        strFalsy options.traceId →
        (httpResponse cfg ambient fresh jp res req options now).record.traceId = s) ∧
      (res.locals.traceId = none → ambient = none → options.traceId = none →
        (httpResponse cfg ambient fresh jp res req options now).record.traceId =
          fresh.traceId)) := by
  refine ⟨?_, ?_, ?_, ?_, ?_⟩
  · intro ambient level message options r hmsg hok
    refine ⟨orStr options.traceId (orStr ambient fresh.traceId),
      log_logData_traceId cfg ambient fresh level message options r hmsg hok,
      orStr_ne_empty _ _ (orStr_ne_empty _ _ hfresh), ?_, ?_⟩
    · intro s hamb hs hfal
      rw [hamb]
      exact orStr_chain_scope _ _ _ hfal hs
    · intro hamb hopt
      rw [hamb, hopt]
      rfl
  · intro ambient jp req options locals now
    refine ⟨orStr_ne_empty _ _ (orStr_ne_empty _ _ hfresh), ?_, ?_⟩
    · intro s hamb hs hfal
      show orStr options.traceId (orStr ambient fresh.traceId) = s
      rw [hamb]
      exact orStr_chain_scope _ _ _ hfal hs
    · intro hamb hopt
      show orStr options.traceId (orStr ambient fresh.traceId) = fresh.traceId
      rw [hamb, hopt]
      rfl
  · intro ambient op options now
    refine ⟨orStr_ne_empty _ _ (orStr_ne_empty _ _ hfresh), ?_, ?_⟩
    · intro s hamb hs hfal
      show orStr options.traceId (orStr ambient fresh.traceId) = s
      rw [hamb]
      exact orStr_chain_scope _ _ _ hfal hs
    · intro hamb hopt
      show orStr options.traceId (orStr ambient fresh.traceId) = fresh.traceId
      rw [hamb, hopt]
      rfl
  · intro ambient q options now
    refine ⟨orStr_ne_empty _ _ (orStr_ne_empty _ _ hfresh), ?_, ?_⟩
    · intro s hamb hs hfal
      show orStr options.traceId (orStr ambient fresh.traceId) = s
      rw [hamb]
      exact orStr_chain_scope _ _ _ hfal hs
    · intro hamb hopt
      show orStr options.traceId (orStr ambient fresh.traceId) = fresh.traceId
      rw [hamb, hopt]
      rfl
  · intro ambient jp res req options now
    refine ⟨orStr_ne_empty _ _ (orStr_ne_empty _ _ (orStr_ne_empty _ _ hfresh)), ?_, ?_, ?_⟩
    · intro t hloc ht
      show orStr res.locals.traceId
        (orStr options.traceId (orStr ambient fresh.traceId)) = t
      rw [hloc]
      exact orStr_of_ne _ _ ht
    · intro s hlocf hamb hs hfal
      show orStr res.locals.traceId
        (orStr options.traceId (orStr ambient fresh.traceId)) = s
      rw [orStr_of_falsy _ _ hlocf, hamb]
      exact orStr_chain_scope _ _ _ hfal hs
    · intro hloc hamb hopt
      show orStr res.locals.traceId
        (orStr options.traceId (orStr ambient fresh.traceId)) = fresh.traceId
      rw [hloc, hamb, hopt]
      rfl

/-- Witness for C4 at concrete inputs: under the active scope `"scope-id"`
with no override, an `httpRequest` record carries `"scope-id"`; outside any
scope, an `sftpTransaction` record carries the freshly minted `"T"`, which is
non-empty. -/
theorem C4_traceId_totality_witness :
    (httpRequest {} (some "scope-id") ⟨"L", "T", "R"⟩ (fun _ => .error "SyntaxError")
        {} {} {} 0).record.traceId = "scope-id" ∧
    (sftpTransaction {} none ⟨"L", "T", "R"⟩
        ⟨"h", "u", .download, "/x", .failure, none, none, none⟩ {} 0).record.traceId = "T" ∧
    (sftpTransaction {} none ⟨"L", "T", "R"⟩
        ⟨"h", "u", .download, "/x", .failure, none, none, none⟩ {} 0).record.traceId ≠ "" := by
  have h := C4_traceId_totality {} ⟨"L", "T", "R"⟩ (by decide)
  refine ⟨?_, ?_, ?_⟩
  · exact (h.2.1 (some "scope-id") (fun _ => .error "SyntaxError") {} {} {} 0).2.1
      "scope-id" rfl (by decide) trivial
  · exact (h.2.2.1 none ⟨"h", "u", .download, "/x", .failure, none, none, none⟩ {} 0).2.2
      rfl rfl
  · exact (h.2.2.1 none ⟨"h", "u", .download, "/x", .failure, none, none, none⟩ {} 0).1

/-!
Claim C6: reserved-field protection on structured messages.
-/

/-- Counterexample to C6 as stated: an object message carrying a `logId`
field overwrites the generated `logId` in the emitted record (the spread
`{...baseEntry, ...message}` lets caller fields clobber `logId` and `type`);
here the generated id "L" is replaced by the caller's "x". -/
theorem C6_counterexample :
    (log {} none ⟨"L", "T", "R"⟩ .info (.obj [("logId", .vStr "x")]) {}).map
        (fun r => objGet r.logData "logId") = .ok (some (.vStr "x")) ∧
      ("x" : String) ≠ "L" :=
  ⟨rfl, by decide⟩

/-- Claim C6 (amended): when `log` is called with an object message, the
object's fields are merged into the emitted record at top level; the merge
may overwrite `logId` and `type`, but the emitted record never carries a
top-level `level` key (both `level` and `message` are stripped before
emission, so no level collision is possible); the scenario
`log('info', {event:'login', userId:'123'})` emits one record containing
`event:'login'` and `userId:'123'` with no top-level `level` field. -/
theorem C6_reserved_level_protection :
    (∀ cfg ambient fresh level fields options r,
      log cfg ambient fresh level (.obj fields) options = .ok r →
      objGet r.logData "level" = none ∧ objGet r.logData "message" = none) ∧
    (∃ r, log {} none ⟨"L", "T", "R"⟩ .info
        (.obj [("event", .vStr "login"), ("userId", .vStr "123")]) {} = .ok r ∧
      objGet r.logData "event" = some (.vStr "login") ∧
      objGet r.logData "userId" = some (.vStr "123") ∧
      objGet r.logData "level" = none) := by
  constructor
  · intro cfg ambient fresh level fields options r hok
    simp only [log, Except.ok.injEq] at hok
    subst hok
    simp only [mkLogResult]
    constructor
    · exact objGet_objRemove_self _ "level"
    · rw [objGet_objRemove_ne _ _ _ (show ("message" : String) ≠ "level" by decide)]
      exact objGet_objRemove_self _ "message"
  · exact ⟨_, rfl, rfl, rfl, rfl⟩

/-- Witness for C6 at a concrete input: a message object trying to smuggle a
`level` field still yields an emitted record with no top-level `level` key. -/
theorem C6_reserved_level_protection_witness :
    (log {} none ⟨"L", "T", "R"⟩ .info (.obj [("level", .vStr "evil")]) {}).map
      (fun r => objGet r.logData "level") = .ok none := by
  cases hok : log {} none ⟨"L", "T", "R"⟩ .info (.obj [("level", .vStr "evil")]) {} with
  | error e => exact absurd hok (by simp [log])
  | ok r =>
    have h := (C6_reserved_level_protection.1 {} none ⟨"L", "T", "R"⟩ .info
      [("level", .vStr "evil")] {} r hok).1
    exact (show (Except.ok r).map (fun r : LogResult => objGet r.logData "level") =
      Except.ok (objGet r.logData "level") from rfl).trans (congrArg Except.ok h)

/-!
Claim C7: glob ignore semantics.
-/

/-- Counterexample to C7 as stated: `*` does not match every run of
characters — the compiled JavaScript regex `.` excludes line terminators, so
the path `/api/a\nb` is not ignored by the pattern `/api/*`. -/
theorem C7_counterexample :
    shouldIgnorePath "/api/a\nb" ["/api/*"] = false := by decide

/-- Claim C7 (amended): in a pattern, `*` matches any run of
non-line-terminator characters and `?` matches exactly one such character
(the compiled JS regex `.` excludes `\n`, `\r`, U+2028, U+2029), and `.` is
literal; path `/health` with pattern `/health` makes `traceMiddleware` pass
through untouched (no trace scope); every path `/api/<run>` is ignored by
`/api/*` (in particular `/api/anything`); and `file?.txt` matches `file1.txt`
but neither `file12.txt` (two characters for one `?`) nor `file1xtxt` (the
dot is literal). -/
theorem C7_glob_ignore :
    (∀ cfg : Config, cfg.ignoreTraceRoutes = ["/health"] →
      ∀ hdr fresh, traceMiddleware cfg "/health" hdr fresh = .passthrough) ∧
    (∀ s : String, (∀ c ∈ s.data, jsDot c = true) →
      shouldIgnorePath ("/api/" ++ s) ["/api/*"] = true) ∧
    (∀ c : Char, jsDot c = true →
      shouldIgnorePath (String.mk ['f', 'i', 'l', 'e', c, '.', 't', 'x', 't'])
        ["file?.txt"] = true) ∧
    shouldIgnorePath "/api/anything" ["/api/*"] = true ∧
    shouldIgnorePath "file1.txt" ["file?.txt"] = true ∧
    shouldIgnorePath "file12.txt" ["file?.txt"] = false ∧
    shouldIgnorePath "file1xtxt" ["file?.txt"] = false := by
  refine ⟨?_, ?_, ?_, by decide, by decide, by decide, by decide⟩
  · intro cfg hroutes hdr fresh
    unfold traceMiddleware
    rw [hroutes]
    simp [show shouldIgnorePath "/health" ["/health"] = true by decide]
  · intro s h
    show List.any ["/api/*"] (fun pattern => globMatch (compileGlob pattern)
      ("/api/" ++ s).data) = true
    have hd : ("/api/" ++ s).data = '/' :: 'a' :: 'p' :: 'i' :: '/' :: s.data := rfl
    have hcg : compileGlob "/api/*" =
        [.lit '/', .lit 'a', .lit 'p', .lit 'i', .lit '/', .anyRun] := rfl
    simp only [List.any_cons, List.any_nil, Bool.or_false, hd, hcg]
    rw [globMatch_lit_cons, globMatch_lit_cons, globMatch_lit_cons,
        globMatch_lit_cons, globMatch_lit_cons]
    exact globMatch_anyRun_of_all s.data h
  · intro c h
    show List.any ["file?.txt"] (fun pattern => globMatch (compileGlob pattern)
      (String.mk ['f', 'i', 'l', 'e', c, '.', 't', 'x', 't']).data) = true
    have hcg : compileGlob "file?.txt" =
        [.lit 'f', .lit 'i', .lit 'l', .lit 'e', .anyOne, .lit '.',
         .lit 't', .lit 'x', .lit 't'] := rfl
    simp only [List.any_cons, List.any_nil, Bool.or_false, hcg]
    simp [globMatch, h]

/-- Witness for C7 at concrete inputs: a logger configured to ignore
`/health` passes `/health` through untouched, and `/api/anything` is matched
by the star pattern via the quantified star clause. -/
theorem C7_glob_ignore_witness :
    traceMiddleware { ignoreTraceRoutes := ["/health"] } "/health" (some "h-id") "F" =
        MwAction.passthrough ∧
      shouldIgnorePath ("/api/" ++ "anything") ["/api/*"] = true := by
  constructor
  · exact C7_glob_ignore.1 { ignoreTraceRoutes := ["/health"] } rfl (some "h-id") "F"
  · exact C7_glob_ignore.2.1 "anything" (by decide)

/-!
Claim C8: header redaction via the allow-list.
-/

/-- Claim C8 (confirmed): every header emitted in an httpRequest record has a
lower-cased name on the allow-list; in particular no emitted header is an
`Authorization` or `Cookie` header (under any capitalisation), so the value
of such a header never appears in the record's headers under that name —
`authorization` and `cookie` are not on the allow-list, and the record's
headers are exactly `filterHeaders(req.headers)`. -/
theorem C8_header_redaction :
    (∀ cfg ambient fresh jp req options locals now p,
      p ∈ (httpRequest cfg ambient fresh jp req options locals now).record.httpRequest.headers →
      asciiLower p.1 ∈ allowedHeaders ∧
        asciiLower p.1 ≠ "authorization" ∧ asciiLower p.1 ≠ "cookie") ∧
    (∀ (headers : List (String × String)) p, p ∈ filterHeaders headers →
      asciiLower p.1 ∈ allowedHeaders) ∧
    (("authorization" ∉ allowedHeaders) ∧ ("cookie" ∉ allowedHeaders)) ∧
    (∀ cfg ambient fresh jp req options locals now,
      (httpRequest cfg ambient fresh jp req options locals now).record.httpRequest.headers =
        filterHeaders req.headers) := by
  have hmem : ∀ (headers : List (String × String)) (p : String × String),
      p ∈ filterHeaders headers → asciiLower p.1 ∈ allowedHeaders := by
    intro headers p hp
    have h := (List.mem_filter.mp hp).2
    exact List.mem_of_elem_eq_true h
  refine ⟨?_, hmem, ⟨by decide, by decide⟩, ?_⟩
  · intro cfg ambient fresh jp req options locals now p hp
    have h := hmem req.headers p hp
    refine ⟨h, ?_, ?_⟩
    · intro he
      rw [he] at h
      exact (by decide : ("authorization" : String) ∉ allowedHeaders) h
    · intro he
      rw [he] at h
      exact (by decide : ("cookie" : String) ∉ allowedHeaders) h
  · intro cfg ambient fresh jp req options locals now
    rfl

/-- Witness for C8 at a concrete request: a request carrying an
`Authorization` header and a `Host` header emits only the host header, whose
name is on the allow-list and is neither authorization nor cookie. -/
theorem C8_header_redaction_witness :
    (httpRequest {} none ⟨"L", "T", "R"⟩ (fun _ => .error "SyntaxError")
        { headers := [("Authorization", "Bearer secret"), ("Host", "example.com")] }
        {} {} 0).record.httpRequest.headers = [("Host", "example.com")] ∧
      asciiLower "Host" ∈ allowedHeaders ∧
        asciiLower "Host" ≠ "authorization" ∧ asciiLower "Host" ≠ "cookie" := by
  constructor
  · decide
  · exact (C8_header_redaction.1 {} none ⟨"L", "T", "R"⟩ (fun _ => .error "SyntaxError")
      { headers := [("Authorization", "Bearer secret"), ("Host", "example.com")] }
      {} {} 0 ("Host", "example.com") (by decide))

/-!
Claim C9: transaction severity and default duration.
-/

/-- Counterexample to C9 as stated: a supplied `options.duration` of `0` is
not used — `0` is falsy, so `options.duration || ...` falls through to the
start-time computation (here `1500 - 1000 = 500`), not to the supplied 0. -/
theorem C9_counterexample :
    (sftpTransaction {} none ⟨"L", "T", "R"⟩
        ⟨"h", "u", .download, "/x", .failure, none, none, none⟩
        { duration := some 0, startTime := some 1000 } 1500).record.duration = 500 ∧
      (500 : Int) ≠ 0 :=
  ⟨rfl, by decide⟩

/-- Claim C9 (amended): `sftpTransaction` and `dbQueryTransaction` emit level
error when the operation's status is failure and info when it is success; the
duration is `options.duration` if supplied and nonzero, else `now -
options.startTime` if `startTime` is supplied and nonzero, else 0; in
particular the claim's scenario (failure download of `/x` with no
startTime/duration) emits level error and duration 0. -/
theorem C9_transaction_severity_duration (cfg : Config) (ambient : Option String)
    (fresh : FreshIds) (now : Int) :
    (∀ op opts, op.status = TxStatus.failure →
      (sftpTransaction cfg ambient fresh op opts now).emitLevel = LogLevel.error) ∧
    (∀ op opts, op.status = TxStatus.success →
      (sftpTransaction cfg ambient fresh op opts now).emitLevel = LogLevel.info) ∧
    (∀ q opts, q.status = TxStatus.failure →
      (dbQueryTransaction cfg ambient fresh q opts now).emitLevel = LogLevel.error) ∧
    (∀ q opts, q.status = TxStatus.success →
      (dbQueryTransaction cfg ambient fresh q opts now).emitLevel = LogLevel.info) ∧
    (∀ op opts,
      (sftpTransaction cfg ambient fresh op opts now).record.duration = txDuration opts now) ∧
    (∀ q opts,
      (dbQueryTransaction cfg ambient fresh q opts now).record.duration = txDuration opts now) ∧
    (∀ (opts : TxOptions) d, opts.duration = some d → d ≠ 0 → txDuration opts now = d) ∧
    (∀ (opts : TxOptions) t, numFalsy opts.duration → opts.startTime = some t → t ≠ 0 →
      txDuration opts now = now - t) ∧
    (∀ (opts : TxOptions), numFalsy opts.duration → numFalsy opts.startTime →
      txDuration opts now = 0) ∧
    ((sftpTransaction cfg ambient fresh
        ⟨"h", "u", .download, "/x", .failure, none, none, none⟩ {} now).emitLevel =
        LogLevel.error ∧
      (sftpTransaction cfg ambient fresh
        ⟨"h", "u", .download, "/x", .failure, none, none, none⟩ {} now).record.duration = 0) := by
  refine ⟨?_, ?_, ?_, ?_, ?_, ?_, ?_, ?_, ?_, ?_, ?_⟩
  · intro op opts h; simp [sftpTransaction, h]
  · intro op opts h; simp [sftpTransaction, h]
  · intro q opts h; simp [dbQueryTransaction, h]
  · intro q opts h; simp [dbQueryTransaction, h]
  · intro op opts; rfl
  · intro q opts; rfl
  · intro opts d hd hdne
    unfold txDuration
    rw [hd, orNum_of_ne _ _ hdne]
  · intro opts t hfal hst htne
    unfold txDuration
    rw [orNum_of_falsy _ _ hfal, hst]
    simp [htne]
  · intro opts hfal hsfal
    unfold txDuration
    rw [orNum_of_falsy _ _ hfal]
    cases hst : opts.startTime with
    | none => rfl
    | some t =>
      have ht : t = 0 := by rw [hst] at hsfal; exact hsfal
      simp [ht]
  · rfl
  · rfl

/-- Witness for C9 at concrete inputs: a failed download with no start time
and no duration is emitted at level error with duration 0, a nonzero supplied
duration wins, and a nonzero start time yields `now - startTime`. -/
theorem C9_transaction_severity_duration_witness :
    (sftpTransaction {} none ⟨"L", "T", "R"⟩
        ⟨"h", "u", .download, "/x", .failure, none, none, none⟩ {} 1500).emitLevel =
      LogLevel.error ∧
    txDuration { duration := some 250 } 1500 = 250 ∧
    txDuration { startTime := some 1000 } 1500 = 500 ∧
    txDuration {} 1500 = 0 := by
  have h := C9_transaction_severity_duration {} none ⟨"L", "T", "R"⟩ 1500
  refine ⟨h.1 ⟨"h", "u", .download, "/x", .failure, none, none, none⟩ {} rfl, ?_, ?_, ?_⟩
  · exact h.2.2.2.2.2.2.1 { duration := some 250 } 250 rfl (by decide)
  · have := h.2.2.2.2.2.2.2.1 { startTime := some 1000 } 1000 trivial rfl (by decide)
    simpa using this
  · exact h.2.2.2.2.2.2.2.2.1 {} trivial trivial

/-!
Claim C10: totality and shape of `safeJsonParse` at the public interface.
-/

/-- Claim C10 (confirmed): `safeJsonParse` is total for every input and every
behaviour of the external `JSON.parse` (the thrown exception is modelled as
`.error` and is always caught): a non-string input is returned unchanged, a
string that parses yields the parsed value, a string that fails to parse is
returned unchanged, and `httpRequest` applies exactly this function to the
request body before emitting the record. -/
theorem C10_safeJsonParse_total (jp : String → Except String JsVal) :
    (∀ v, (∀ s, v ≠ JsVal.vStr s) → safeJsonParse jp v = v) ∧
    (∀ s r, jp s = .ok r → safeJsonParse jp (.vStr s) = r) ∧
    (∀ s e, jp s = .error e → safeJsonParse jp (.vStr s) = .vStr s) ∧
    (∀ cfg ambient fresh req opts locals now,
      (httpRequest cfg ambient fresh jp req opts locals now).record.httpRequest.body =
        safeJsonParse jp req.body) := by
  refine ⟨?_, ?_, ?_, ?_⟩
  · intro v hv
    cases v with
    | vStr s => exact absurd rfl (hv s)
    | vNull => rfl
    | vUndefined => rfl
    | vNum n => rfl
    | vBool b => rfl
    | vObj fields => rfl
  · intro s r h; simp [safeJsonParse, h]
  · intro s e h; simp [safeJsonParse, h]
  · intro cfg ambient fresh req opts locals now; rfl

/-- Witness for C10 at a concrete parse function: a number passes through
unchanged, a parsable string is replaced by its parse, and an unparsable
string is returned verbatim. -/
theorem C10_safeJsonParse_total_witness :
    safeJsonParse (fun s => if s = "1" then .ok (.vNum 1) else .error "SyntaxError")
        (.vNum 5) = .vNum 5 ∧
    safeJsonParse (fun s => if s = "1" then .ok (.vNum 1) else .error "SyntaxError")
        (.vStr "1") = .vNum 1 ∧
    safeJsonParse (fun s => if s = "1" then .ok (.vNum 1) else .error "SyntaxError")
        (.vStr "oops") = .vStr "oops" := by
  have h := C10_safeJsonParse_total
    (fun s => if s = "1" then .ok (.vNum 1) else .error "SyntaxError")
  refine ⟨h.1 (.vNum 5) (fun s he => JsVal.noConfusion he), ?_, ?_⟩
  · exact h.2.1 "1" (.vNum 1) (by simp)
  · exact h.2.2.1 "oops" "SyntaxError" (by simp)

end UL
